import Mathlib

/-!
Shallow embedding of two components of the addons-frontend repository:

* `src/amo/components/AddonReview/index.js` — the review form
  (`AddonReviewBase`): draft state, debounced local save, recovery from
  local storage, optimistic updates, and submit.
* `src/unnamed/part_000` — the error boundary (`ErrorPageBase`).

JavaScript values that may be `null` or `undefined` are embedded as
`Option`; JavaScript truthiness on those fields is made explicit
(`jsFalsy…`).  Asynchronous effects of a handler are embedded as a list
of `Effect` values in the order the code issues them.  Time is a `Nat`
of milliseconds.
-/

/-- The shape of a user review as the component consumes it
(`props.review : UserReviewType`).  Fields the embedded logic reads:
`id`, `addonId`, `addonSlug`, `body`, `rating`.  Each may be absent. -/
structure UserReviewType where
  id : Option Nat
  addonId : Option Nat
  addonSlug : Option String
  body : Option String
  rating : Option Nat
deriving DecidableEq, Repr

/-- The component state declared in the source:
`type State = { reviewBody: ?string }`.  It has no other field; in
particular it has no rating field. -/
structure State where
  reviewBody : Option String
deriving DecidableEq, Repr

/-- A snapshot as it sits in the local draft store.  The object the code
saves is `newState = { reviewBody: event.target.value }`; reading a key
the object does not have yields `undefined`, embedded as `none`, so the
`rating` field of a stored snapshot records whether a rating key is
present. -/
structure StoredState where
  reviewBody : Option String
  rating : Option Nat
deriving DecidableEq, Repr

/-- JavaScript truthiness test for an optional number: `!x` is true when
`x` is `undefined`/`null` or `0`. -/
def jsFalsyNat : Option Nat → Bool
  | none => true
  | some n => n == 0

/-- JavaScript truthiness test for an optional string: `!x` is true when
`x` is `undefined`/`null` or the empty string. -/
def jsFalsyStr : Option String → Bool
  | none => true
  | some s => s == ""

/-- The expression `reviewBody || undefined` from the source: a falsy
body (absent or empty) becomes `undefined`. -/
def jsOrUndefined (b : Option String) : Option String :=
  if jsFalsyStr b then none else b

/-- The error handler injected by `withErrorHandler`.  The component
only calls `errorHandler.renderErrorIfPresent()`; its state is whether
an error has been captured and which. -/
structure ErrorHandler where
  hasError : Bool
  error : Option String
deriving DecidableEq, Repr

/-- Modelled from the spec: `renderErrorIfPresent` of the errorHandler
collaborator (`core/errorHandler`, not under `src/`) renders the
captured error when one is present and renders nothing otherwise
("surface the error through a caller-visible error-display
mechanism"). -/
def renderErrorIfPresent (eh : ErrorHandler) : Option String :=
  if eh.hasError then some (eh.error.getD "error") else none

/-- Modelled from the spec: the remote update call (`updateReviewText`,
built on `amo/api/reviews.submitReview`, not under `src/`) captures its
error with the error handler on failure and leaves the handler alone on
success ("operational errors — remote call failures — are caught,
surfaced via a user-visible error display"). -/
def errorHandlerAfterRemote (eh : ErrorHandler) (remoteSucceeds : Bool)
    (err : String) : ErrorHandler :=
  if remoteSucceeds then eh else { hasError := true, error := some err }

namespace AddonReviewBase

/-- The constructor seeds the state from the supplied review:
`this.state = { reviewBody: props.review.body }`. -/
def initialState (review : UserReviewType) : State :=
  { reviewBody := review.body }

/-- The key of the local store entry:
`createLocalState(\x7bAddonReview:$\x7bprops.review.id\x7d\x7d)`.  A missing id
interpolates as the string undefined, as in JavaScript. -/
def localStateId (review : UserReviewType) : String :=
  "AddonReview:" ++ (match review.id with
    | some n => toString n
    | none => "undefined")

/-- `checkForStoredState`: `localState.load()` resolves with the stored
snapshot or `null`; when it is truthy the component does
`this.setState(storedState)`, which overwrites `reviewBody` with the
stored value.  The state after the load completes. -/
def stateAfterLoad (review : UserReviewType) (stored : Option StoredState) :
    State :=
  match stored with
  | some s => { reviewBody := s.reviewBody }
  | none => initialState review

/-- `componentWillReceiveProps`: when the next props carry a truthy
review, `setState(\x7b reviewBody: review.body \x7d)` replaces the body. -/
def componentWillReceiveProps (st : State) (nextReview : Option UserReviewType) :
    State :=
  match nextReview with
  | some r => { reviewBody := r.body }
  | none => st

/-- The parameters object built by `onSubmit` for the remote call
(`apiState` and `errorHandler` are carried opaquely and omitted):
`addonId: review.addonId`, `rating: review.rating`,
`reviewId: review.id`, and the spread of
`newReviewParams = \x7b body: reviewBody || undefined \x7d`. -/
structure SubmitParams where
  addonId : Option Nat
  rating : Option Nat
  reviewId : Option Nat
  body : Option String
deriving DecidableEq, Repr

/-- `params` as assembled in `onSubmit`. -/
def submitParams (review : UserReviewType) (st : State) : SubmitParams :=
  { addonId := review.addonId
    rating := review.rating
    reviewId := review.id
    body := jsOrUndefined st.reviewBody }

/-- `updatedReview = \x7b ...review, ...newReviewParams \x7d`: the review with
its body replaced by `reviewBody || undefined` (an explicit `undefined`
in a spread does overwrite the key). -/
def submitUpdatedReview (review : UserReviewType) (st : State) :
    UserReviewType :=
  { review with body := jsOrUndefined st.reviewBody }

/-- One observable effect issued by a handler, in program order. -/
inductive Effect where
  /-- `setDenormalizedReview(review)` dispatched to shared state. -/
  | setDenormalizedReview (review : UserReviewType)
  /-- the remote call `updateReviewText(params)`. -/
  | updateReviewText (params : SubmitParams)
  /-- the caller-supplied completion callback `onReviewSubmitted()`. -/
  | onReviewSubmitted
  /-- `this.localState.clear()`. -/
  | localClear
  /-- `refreshAddon(\x7b addonSlug, apiState \x7d)`. -/
  | refreshAddon (addonSlug : Option String)
deriving DecidableEq, Repr

/-- `onSubmit`.  It first checks, with `invariant`, that the three
injected functions are defined (it performs no check on the review
fields themselves), then dispatches the optimistic
`setDenormalizedReview(updatedReview)`, then calls
`updateReviewText(params)`.  Only when that promise resolves does the
`then` branch run `onReviewSubmitted()`, `localState.clear()` and
`refreshAddon(...)`; on rejection none of the three runs.  The result
is the ordered list of effects, or the invariant message. -/
def onSubmit (hasRefreshAddon hasUpdateReviewText hasSetDenormalizedReview : Bool)
    (review : UserReviewType) (st : State) (remoteSucceeds : Bool) :
    Except String (List Effect) :=
  if !hasRefreshAddon then .error "refreshAddon() is undefined"
  else if !hasUpdateReviewText then .error "updateReviewText() is undefined"
  else if !hasSetDenormalizedReview then
    .error "setDenormalizedReview() is undefined"
  else
    .ok ([Effect.setDenormalizedReview (submitUpdatedReview review st),
          Effect.updateReviewText (submitParams review st)] ++
      (if remoteSucceeds then
        [Effect.onReviewSubmitted, Effect.localClear,
         Effect.refreshAddon review.addonSlug]
      else []))

/-- `onSelectRating`: after the `invariant` on `setDenormalizedReview`,
the handler dispatches `\x7b ...review, body: reviewBody || undefined,
rating \x7d`.  It never calls `this.setState`, so the component state is
returned unchanged alongside the dispatched review. -/
def onSelectRating (hasSetDenormalizedReview : Bool)
    (review : UserReviewType) (st : State) (rating : Nat) :
    Except String (UserReviewType × State) :=
  if !hasSetDenormalizedReview then
    .error "setDenormalizedReview() is undefined"
  else
    .ok ({ review with
            body := jsOrUndefined st.reviewBody
            rating := some rating }, st)

/-- The snapshot `onBodyInput` hands to `localState.save`:
`newState = \x7b reviewBody: event.target.value \x7d`.  The object carries no
rating key and no id key. -/
def savedSnapshotOnEdit (value : String) : StoredState :=
  { reviewBody := some value, rating := none }

/-- Trailing-edge debounce as implemented by `lodash.debounce(f, wait)`:
a call at time `t` with payload `v` invokes `f v` at `t + wait` unless a
further call on the same debounced function arrives at or before
`t + wait`, in which case the earlier call is superseded.  Call times
are assumed strictly increasing.  Returns the invocations that actually
fire, with their times. -/
def debounceFires (wait : Nat) : List (Nat × StoredState) → List (Nat × StoredState)
  | [] => []
  | (t, v) :: rest =>
    match rest with
    | [] => [(t + wait, v)]
    | (t2, _) :: _ =>
      (if t + wait < t2 then [(t + wait, v)] else []) ++ debounceFires wait rest

/-- `onBodyInput` as written: on EVERY input event it evaluates
`this.props.debounce((state) => this.localState.save(state), 800)`,
producing a fresh debounced function, and calls it once with the new
state.  The saves executed for a sequence of edits `(time, value)` are
therefore the fires of one single-call debounced function per edit. -/
def executedSaves (edits : List (Nat × String)) : List (Nat × StoredState) :=
  (edits.map fun e => debounceFires 800 [(e.1, savedSnapshotOnEdit e.2)]).flatten

/-- Definition following the words of the spec, for comparison: the
intended behaviour routes every edit through one shared debounced
function, so that edits within one 800ms idle window coalesce and only
the last is persisted. -/
def specSharedDebounceSaves (edits : List (Nat × String)) :
    List (Nat × StoredState) :=
  debounceFires 800 (edits.map fun e => (e.1, savedSnapshotOnEdit e.2))

/-- Definition following the words of the spec, for comparison: the
full draft snapshot the spec says a debounced save persists, carrying
the body of the edit together with the unchanged rating of the review
("store now holds \x7bid, body, rating\x7d"). -/
def specFullSnapshot (review : UserReviewType) (value : String) : StoredState :=
  { reviewBody := some value, rating := review.rating }

/-- What the AddonReview render shows, when it does not throw: the
error area (`errorHandler.renderErrorIfPresent()`), the textarea value
(`value=\x7breviewBody\x7d` from state) and the review handed to the
`UserRating` element (`review=\x7breview\x7d` from props). -/
structure RenderOutput where
  errorDisplay : Option String
  bodyValue : Option String
  ratingReview : UserReviewType
deriving DecidableEq, Repr

/-- `render`: it throws `Unexpected review property` when
`!review || !review.id || !review.addonSlug` (the review object itself
is always present in this embedding); otherwise it renders the overlay
with the error area, the textarea bound to `state.reviewBody`, and the
`UserRating` element bound to `props.review`. -/
def render (review : UserReviewType) (st : State) (eh : ErrorHandler) :
    Except String RenderOutput :=
  if jsFalsyNat review.id || jsFalsyStr review.addonSlug then
    .error "Unexpected review property"
  else
    .ok { errorDisplay := renderErrorIfPresent eh
          bodyValue := st.reviewBody
          ratingReview := review }

/-- Number of `localState.clear()` effects in a trace. -/
def countClear (tr : List Effect) : Nat :=
  tr.countP fun e => match e with
    | Effect.localClear => true
    | _ => false

/-- Number of `onReviewSubmitted()` callback invocations in a trace. -/
def countCallback (tr : List Effect) : Nat :=
  tr.countP fun e => match e with
    | Effect.onReviewSubmitted => true
    | _ => false

/-- Whether a trace contains the remote update call. -/
def hasRemoteCall (tr : List Effect) : Bool :=
  tr.any fun e => match e with
    | Effect.updateReviewText _ => true
    | _ => false

/-- Whether a trace contains a dispatch to shared state. -/
def hasDenormDispatch (tr : List Effect) : Bool :=
  tr.any fun e => match e with
    | Effect.setDenormalizedReview _ => true
    | _ => false

end AddonReviewBase

namespace ErrorPageBase

/-- The shared error-page state (`core/reducers/errorPage`): whether an
error was recorded, the error itself and the status code.  The default
prop `errorPage = \x7b\x7d` has every field absent (falsy `hasError`). -/
structure ErrorPageState where
  hasError : Bool
  error : Option String
  statusCode : Option Nat
deriving DecidableEq, Repr

/-- The value `ErrorPageBase.render` returns: either the fallback
component selected by `getErrorComponent(statusCode)` with the `error`
and `status` props it is given, or the wrapped children unchanged. -/
inductive RenderResult (C : Type) (Children : Type) where
  /-- `<ErrorComponent error=... status=... />` -/
  | fallback (component : C) (error : Option String) (status : Option Nat)
  /-- `return children` -/
  | childrenOut (children : Children)
deriving DecidableEq

/-- `render`: if `errorPage.hasError`, render the component
`getErrorComponent(errorPage.statusCode)` with props
`error=\x7berrorPage.error\x7d status=\x7berrorPage.statusCode\x7d`; otherwise
return `children`. -/
def render {C Children : Type} (getErrorComponent : Option Nat → C)
    (errorPage : ErrorPageState) (children : Children) :
    RenderResult C Children :=
  if errorPage.hasError then
    RenderResult.fallback (getErrorComponent errorPage.statusCode)
      errorPage.error errorPage.statusCode
  else
    RenderResult.childrenOut children

end ErrorPageBase

/-- C1: the claim states that all body edits within one 800ms debounce
window produce exactly one save, the last one, earlier scheduled saves
being superseded.  In the source, `onBodyInput` builds a FRESH debounced
function on every input event and calls it once, so no call ever
supersedes another: for the edits at 0ms (body a) and 100ms (body ab),
well inside one window, BOTH saves execute (at 800ms and at 900ms),
whereas one shared debounced function, as the spec describes, would
execute only the save of the last edit (at 900ms). -/
theorem c1_everyEditSaveExecutes :
    AddonReviewBase.executedSaves [(0, "a"), (100, "ab")] =
      [(800, { reviewBody := some "a", rating := none }),
       (900, { reviewBody := some "ab", rating := none })] ∧
    (AddonReviewBase.executedSaves [(0, "a"), (100, "ab")]).length ≠ 1 ∧
    AddonReviewBase.specSharedDebounceSaves [(0, "a"), (100, "ab")] =
      [(900, { reviewBody := some "ab", rating := none })] := by
  refine ⟨rfl, by decide, rfl⟩

/-- C2: for every submit whose remote update call succeeds, the trace of
effects contains exactly one `localState.clear()` and exactly one
invocation of the caller-supplied `onReviewSubmitted` callback. -/
theorem c2_successClearsOnceCallbackOnce (review : UserReviewType) (st : State) :
    ∃ tr, AddonReviewBase.onSubmit true true true review st true =
        Except.ok tr ∧
      AddonReviewBase.countClear tr = 1 ∧
      AddonReviewBase.countCallback tr = 1 := by
  exact ⟨_, rfl, rfl, rfl⟩

theorem c2_witness :
    ∃ tr, AddonReviewBase.onSubmit true true true
        { id := some 1, addonId := some 2, addonSlug := some "slug",
          body := some "old", rating := some 4 }
        { reviewBody := some "great addon" } true = Except.ok tr ∧
      AddonReviewBase.countClear tr = 1 ∧
      AddonReviewBase.countCallback tr = 1 :=
  c2_successClearsOnceCallbackOnce
    { id := some 1, addonId := some 2, addonSlug := some "slug",
      body := some "old", rating := some 4 }
    { reviewBody := some "great addon" }

/-- C8: the error boundary render returns the fallback component
selected by `statusCode`, passed the recorded error and status, exactly
when the shared error-page state has `hasError`, and otherwise returns
the wrapped children unchanged. -/
theorem c8_errorPageRenderDispatch {C Children : Type}
    (getErrorComponent : Option Nat → C)
    (errorPage : ErrorPageBase.ErrorPageState) (children : Children) :
    (ErrorPageBase.render getErrorComponent errorPage children =
        ErrorPageBase.RenderResult.fallback
          (getErrorComponent errorPage.statusCode)
          errorPage.error errorPage.statusCode ↔
      errorPage.hasError = true) ∧
    (ErrorPageBase.render getErrorComponent errorPage children =
        ErrorPageBase.RenderResult.childrenOut children ↔
      errorPage.hasError = false) := by
  cases herr : errorPage.hasError <;>
    simp [ErrorPageBase.render, herr]

theorem c8_witness :
    (ErrorPageBase.render (fun sc => sc.getD 0)
        { hasError := true, error := some "boom", statusCode := some 404 }
        (7 : Nat) =
      ErrorPageBase.RenderResult.fallback (404 : Nat) (some "boom")
        (some 404) ↔
      ({ hasError := true, error := some "boom", statusCode := some 404 } :
        ErrorPageBase.ErrorPageState).hasError = true) ∧
    (ErrorPageBase.render (fun sc => sc.getD 0)
        { hasError := true, error := some "boom", statusCode := some 404 }
        (7 : Nat) =
      ErrorPageBase.RenderResult.childrenOut 7 ↔
      ({ hasError := true, error := some "boom", statusCode := some 404 } :
        ErrorPageBase.ErrorPageState).hasError = false) :=
  c8_errorPageRenderDispatch (fun sc => sc.getD 0)
    { hasError := true, error := some "boom", statusCode := some 404 } 7

/-- C9: whenever the component receives new props containing a review,
`componentWillReceiveProps` overwrites the in-memory draft body with the
incoming review body, whatever the previous state held (unsaved edits or
a recovered stored draft alike). -/
theorem c9_incomingReviewOverwritesBody (st : State) (r : UserReviewType) :
    AddonReviewBase.componentWillReceiveProps st (some r) =
      { reviewBody := r.body } :=
  rfl

theorem c9_witness :
    AddonReviewBase.componentWillReceiveProps
        { reviewBody := some "unsaved local edit" }
        (some { id := some 1, addonId := some 2, addonSlug := some "slug",
                body := some "incoming", rating := some 4 }) =
      { reviewBody := some "incoming" } :=
  c9_incomingReviewOverwritesBody { reviewBody := some "unsaved local edit" }
    { id := some 1, addonId := some 2, addonSlug := some "slug",
      body := some "incoming", rating := some 4 }

/-- C3: for every submit whose remote update call fails, the effect
trace contains no `localState.clear()` (the draft stays recoverable),
and the error captured by the error handler is rendered in the error
area of the form (the error-capture step of the handler is modelled from
the spec, its source not being under src). -/
theorem c3_failureNoClearErrorRendered (review : UserReviewType) (st : State)
    (eh : ErrorHandler) (err : String)
    (hid : jsFalsyNat review.id = false)
    (hslug : jsFalsyStr review.addonSlug = false) :
    ∃ tr, AddonReviewBase.onSubmit true true true review st false =
        Except.ok tr ∧
      AddonReviewBase.countClear tr = 0 ∧
      AddonReviewBase.render review st (errorHandlerAfterRemote eh false err) =
        Except.ok { errorDisplay := some err
                    bodyValue := st.reviewBody
                    ratingReview := review } := by
  refine ⟨_, rfl, rfl, ?_⟩
  simp [AddonReviewBase.render, hid, hslug, errorHandlerAfterRemote,
    renderErrorIfPresent]

theorem c3_witness :
    ∃ tr, AddonReviewBase.onSubmit true true true
        { id := some 1, addonId := some 2, addonSlug := some "slug",
          body := some "old", rating := some 4 }
        { reviewBody := some "draft" } false = Except.ok tr ∧
      AddonReviewBase.countClear tr = 0 ∧
      AddonReviewBase.render
          { id := some 1, addonId := some 2, addonSlug := some "slug",
            body := some "old", rating := some 4 }
          { reviewBody := some "draft" }
          (errorHandlerAfterRemote { hasError := false, error := none }
            false "remote failure") =
        Except.ok { errorDisplay := some "remote failure"
                    bodyValue := some "draft"
                    ratingReview :=
                      { id := some 1, addonId := some 2,
                        addonSlug := some "slug", body := some "old",
                        rating := some 4 } } :=
  c3_failureNoClearErrorRendered
    { id := some 1, addonId := some 2, addonSlug := some "slug",
      body := some "old", rating := some 4 }
    { reviewBody := some "draft" }
    { hasError := false, error := none } "remote failure"
    (by decide) (by decide)

/-- C4 counterexample: the claim states that when a stored draft is
found at construction, the rendered initial body AND rating reflect the
stored snapshot and not the initially supplied review.  Two supplied
reviews that differ only in rating, recovered against the SAME stored
snapshot, yield the same in-memory state yet different render outputs:
the rendered rating still comes from the supplied review (component
state has no rating field and the UserRating element reads
`props.review`), so the render is not determined by the stored
snapshot. -/
theorem c4_renderNotDeterminedByStored :
    AddonReviewBase.stateAfterLoad
        { id := some 1, addonId := some 2, addonSlug := some "slug",
          body := some "old", rating := some 1 }
        (some { reviewBody := some "stored body", rating := none }) =
      AddonReviewBase.stateAfterLoad
        { id := some 1, addonId := some 2, addonSlug := some "slug",
          body := some "old", rating := some 5 }
        (some { reviewBody := some "stored body", rating := none }) ∧
    AddonReviewBase.render
        { id := some 1, addonId := some 2, addonSlug := some "slug",
          body := some "old", rating := some 1 }
        (AddonReviewBase.stateAfterLoad
          { id := some 1, addonId := some 2, addonSlug := some "slug",
            body := some "old", rating := some 1 }
          (some { reviewBody := some "stored body", rating := none }))
        { hasError := false, error := none } =
      Except.ok { errorDisplay := none
                  bodyValue := some "stored body"
                  ratingReview :=
                    { id := some 1, addonId := some 2,
                      addonSlug := some "slug", body := some "old",
                      rating := some 1 } } ∧
    AddonReviewBase.render
        { id := some 1, addonId := some 2, addonSlug := some "slug",
          body := some "old", rating := some 5 }
        (AddonReviewBase.stateAfterLoad
          { id := some 1, addonId := some 2, addonSlug := some "slug",
            body := some "old", rating := some 5 }
          (some { reviewBody := some "stored body", rating := none }))
        { hasError := false, error := none } =
      Except.ok { errorDisplay := none
                  bodyValue := some "stored body"
                  ratingReview :=
                    { id := some 1, addonId := some 2,
                      addonSlug := some "slug", body := some "old",
                      rating := some 5 } } ∧
    ({ errorDisplay := none, bodyValue := some "stored body",
       ratingReview :=
         { id := some 1, addonId := some 2, addonSlug := some "slug",
           body := some "old", rating := some 1 } } :
        AddonReviewBase.RenderOutput) ≠
      { errorDisplay := none, bodyValue := some "stored body",
        ratingReview :=
          { id := some 1, addonId := some 2, addonSlug := some "slug",
            body := some "old", rating := some 5 } } := by
  refine ⟨rfl, rfl, rfl, by decide⟩

/-- C4 amended: when the local store holds a snapshot at construction,
the in-memory state is overwritten with it, and the rendered body comes
from the stored snapshot rather than the supplied review; the rendered
rating, however, always comes from the supplied review, because stored
snapshots carry only the body. -/
theorem c4_storedBodyWinsRatingFromProps (review : UserReviewType)
    (s : StoredState) (eh : ErrorHandler) (o : AddonReviewBase.RenderOutput)
    (h : AddonReviewBase.render review
        (AddonReviewBase.stateAfterLoad review (some s)) eh = Except.ok o) :
    AddonReviewBase.stateAfterLoad review (some s) =
      { reviewBody := s.reviewBody } ∧
    o.bodyValue = s.reviewBody ∧ o.ratingReview = review := by
  refine ⟨rfl, ?_⟩
  unfold AddonReviewBase.render at h
  split at h
  · exact Except.noConfusion h
  · injection h with h2
    subst h2
    exact ⟨rfl, rfl⟩

theorem c4_witness :
    AddonReviewBase.stateAfterLoad
        { id := some 1, addonId := some 2, addonSlug := some "slug",
          body := some "old", rating := some 1 }
        (some { reviewBody := some "stored body", rating := none }) =
      { reviewBody := some "stored body" } ∧
    ({ errorDisplay := none, bodyValue := some "stored body",
       ratingReview :=
         { id := some 1, addonId := some 2, addonSlug := some "slug",
           body := some "old", rating := some 1 } } :
        AddonReviewBase.RenderOutput).bodyValue = some "stored body" ∧
    ({ errorDisplay := none, bodyValue := some "stored body",
       ratingReview :=
         { id := some 1, addonId := some 2, addonSlug := some "slug",
           body := some "old", rating := some 1 } } :
        AddonReviewBase.RenderOutput).ratingReview =
      { id := some 1, addonId := some 2, addonSlug := some "slug",
        body := some "old", rating := some 1 } :=
  c4_storedBodyWinsRatingFromProps
    { id := some 1, addonId := some 2, addonSlug := some "slug",
      body := some "old", rating := some 1 }
    { reviewBody := some "stored body", rating := none }
    { hasError := false, error := none }
    { errorDisplay := none, bodyValue := some "stored body",
      ratingReview :=
        { id := some 1, addonId := some 2, addonSlug := some "slug",
          body := some "old", rating := some 1 } }
    (by rfl)

/-- C5 counterexample: the claim states that a debounced save persists
the full draft snapshot, id, body and rating (so after editing the body
against a review rated 5, the store would hold the rating 5).  The
object the code saves is only the new component state, one reviewBody
key, so the spec-side full snapshot differs from the saved one: the
saved snapshot has no rating. -/
theorem c5_savedSnapshotLacksRating :
    AddonReviewBase.savedSnapshotOnEdit "great addon" ≠
      AddonReviewBase.specFullSnapshot
        { id := some 1, addonId := some 2, addonSlug := some "slug",
          body := some "old", rating := some 5 } "great addon" ∧
    (AddonReviewBase.savedSnapshotOnEdit "great addon").rating = none ∧
    (AddonReviewBase.specFullSnapshot
        { id := some 1, addonId := some 2, addonSlug := some "slug",
          body := some "old", rating := some 5 } "great addon").rating =
      some 5 := by
  refine ⟨by decide, rfl, rfl⟩

/-- C5 amended: every executed debounced save persists only the body of
its edit: the stored value is the state object of that edit, with no
rating (and no id — the id lives in the store key, AddonReview: followed
by the review id). -/
theorem c5_everySavePersistsOnlyBody (edits : List (Nat × String))
    (p : Nat × StoredState) (hp : p ∈ AddonReviewBase.executedSaves edits) :
    p.2.rating = none ∧
      ∃ e ∈ edits, p.1 = e.1 + 800 ∧ p.2.reviewBody = some e.2 := by
  have hp2 : p ∈ (edits.map fun e => AddonReviewBase.debounceFires 800
      [(e.1, AddonReviewBase.savedSnapshotOnEdit e.2)]).flatten := hp
  rcases List.mem_flatten.mp hp2 with ⟨l, hl, hpl⟩
  rcases List.mem_map.mp hl with ⟨e, he, rfl⟩
  have hred : AddonReviewBase.debounceFires 800
      [(e.1, AddonReviewBase.savedSnapshotOnEdit e.2)] =
      [(e.1 + 800, AddonReviewBase.savedSnapshotOnEdit e.2)] := rfl
  rw [hred] at hpl
  have hpe : p = (e.1 + 800, AddonReviewBase.savedSnapshotOnEdit e.2) :=
    List.mem_singleton.mp hpl
  subst hpe
  exact ⟨rfl, e, he, rfl, rfl⟩

theorem c5_witness :
    ((800, ({ reviewBody := some "great addon", rating := none } :
        StoredState)) : Nat × StoredState).2.rating = none ∧
      ∃ e ∈ [((0 : Nat), "great addon")],
        ((800, ({ reviewBody := some "great addon", rating := none } :
            StoredState)) : Nat × StoredState).1 = e.1 + 800 ∧
        ((800, ({ reviewBody := some "great addon", rating := none } :
            StoredState)) : Nat × StoredState).2.reviewBody = some e.2 :=
  c5_everySavePersistsOnlyBody [(0, "great addon")]
    (800, { reviewBody := some "great addon", rating := none })
    (by decide)

/-- C6 counterexample: the claim states that the rating-selection
handler updates the in-memory component state as well as dispatching the
optimistic overlay.  At a concrete input the handler returns the
component state exactly as it was — it performs no setState (the state
type holds only the body) — while dispatching the overlaid review. -/
theorem c6_stateUntouchedByRatingSelect :
    (AddonReviewBase.onSelectRating true
        { id := some 1, addonId := some 2, addonSlug := some "slug",
          body := some "old", rating := some 1 }
        { reviewBody := some "draft text" } 5).toOption.map Prod.snd =
      some { reviewBody := some "draft text" } ∧
    (AddonReviewBase.onSelectRating true
        { id := some 1, addonId := some 2, addonSlug := some "slug",
          body := some "old", rating := some 1 }
        { reviewBody := some "draft text" } 5).toOption.map Prod.fst =
      some { id := some 1, addonId := some 2, addonSlug := some "slug",
             body := some "draft text", rating := some 5 } := by
  refine ⟨rfl, rfl⟩

/-- C6 amended: for every rating selection with the dispatcher present,
the handler immediately dispatches the supplied review overlaid with the
current body (a falsy body dropped to undefined) and the new rating, and
returns the component state unchanged; with the dispatcher missing it
fails its invariant. -/
theorem c6_dispatchOnlyOnRatingSelect (review : UserReviewType) (st : State)
    (rating : Nat) :
    AddonReviewBase.onSelectRating true review st rating =
      Except.ok ({ review with
                    body := jsOrUndefined st.reviewBody
                    rating := some rating }, st) ∧
    AddonReviewBase.onSelectRating false review st rating =
      Except.error "setDenormalizedReview() is undefined" :=
  ⟨rfl, rfl⟩

theorem c6_witness :
    AddonReviewBase.onSelectRating true
        { id := some 1, addonId := some 2, addonSlug := some "slug",
          body := some "old", rating := some 1 }
        { reviewBody := some "draft text" } 5 =
      Except.ok
        ({ ({ id := some 1, addonId := some 2, addonSlug := some "slug",
              body := some "old", rating := some 1 } : UserReviewType) with
            body := jsOrUndefined (some "draft text")
            rating := some 5 },
         { reviewBody := some "draft text" }) ∧
    AddonReviewBase.onSelectRating false
        { id := some 1, addonId := some 2, addonSlug := some "slug",
          body := some "old", rating := some 1 }
        { reviewBody := some "draft text" } 5 =
      Except.error "setDenormalizedReview() is undefined" :=
  c6_dispatchOnlyOnRatingSelect
    { id := some 1, addonId := some 2, addonSlug := some "slug",
      body := some "old", rating := some 1 }
    { reviewBody := some "draft text" } 5

/-- C7 counterexample: the claim states that submit validates the
identity fields of the review first and fails fast before any state
change or remote call when one is missing.  With the review id,
addonId and addonSlug all absent, onSubmit raises no error: it
dispatches the optimistic update, performs the remote call (with an
undefined reviewId) and, the call succeeding, even clears the local
store. -/
theorem c7_submitProceedsWithoutIdentity :
    ∃ tr, AddonReviewBase.onSubmit true true true
        { id := none, addonId := none, addonSlug := none,
          body := some "old", rating := some 3 }
        { reviewBody := some "x" } true = Except.ok tr ∧
      AddonReviewBase.hasDenormDispatch tr = true ∧
      AddonReviewBase.hasRemoteCall tr = true ∧
      AddonReviewBase.countClear tr = 1 := by
  exact ⟨_, rfl, rfl, rfl, rfl⟩

/-- C7 amended: the identity validation lives in render, not in
onSubmit: render throws the unexpected-state error exactly when the
review id or the addonSlug is falsy, before the form (and hence its
submit handler) exists; onSubmit itself checks only that the three
injected functions are defined and never inspects the identity
fields. -/
theorem c7_validationInRenderNotSubmit (review : UserReviewType) (st : State)
    (eh : ErrorHandler) (remoteSucceeds : Bool) :
    ((AddonReviewBase.render review st eh).isOk = false ↔
      (jsFalsyNat review.id || jsFalsyStr review.addonSlug) = true) ∧
    (AddonReviewBase.onSubmit true true true review st remoteSucceeds).isOk =
      true ∧
    (AddonReviewBase.onSubmit false true true review st remoteSucceeds).isOk =
      false := by
  refine ⟨?_, rfl, rfl⟩
  unfold AddonReviewBase.render
  cases hc : (jsFalsyNat review.id || jsFalsyStr review.addonSlug) <;>
    simp [hc, Except.isOk, Except.toBool]

theorem c7_witness :
    ((AddonReviewBase.render
        { id := none, addonId := none, addonSlug := none,
          body := some "old", rating := some 3 }
        { reviewBody := some "x" }
        { hasError := false, error := none }).isOk = false ↔
      (jsFalsyNat (none : Option Nat) ||
        jsFalsyStr (none : Option String)) = true) ∧
    (AddonReviewBase.onSubmit true true true
        { id := none, addonId := none, addonSlug := none,
          body := some "old", rating := some 3 }
        { reviewBody := some "x" } true).isOk = true ∧
    (AddonReviewBase.onSubmit false true true
        { id := none, addonId := none, addonSlug := none,
          body := some "old", rating := some 3 }
        { reviewBody := some "x" } true).isOk = false :=
  c7_validationInRenderNotSubmit
    { id := none, addonId := none, addonSlug := none,
      body := some "old", rating := some 3 }
    { reviewBody := some "x" }
    { hasError := false, error := none } true

/-- C10: when the in-memory review body is absent or the empty string at
submit time, both the remote-call parameters and the optimistic merged
review dispatched to shared state carry no body at all (the expression
reviewBody || undefined drops it), never an empty string; and the submit
trace carries exactly those two values. -/
theorem c10_emptyBodyDropped (review : UserReviewType) (st : State)
    (h : st.reviewBody = none ∨ st.reviewBody = some "") :
    (AddonReviewBase.submitParams review st).body = none ∧
    (AddonReviewBase.submitUpdatedReview review st).body = none ∧
    ∃ tr, AddonReviewBase.onSubmit true true true review st true =
        Except.ok tr ∧
      AddonReviewBase.Effect.setDenormalizedReview
          (AddonReviewBase.submitUpdatedReview review st) ∈ tr ∧
      AddonReviewBase.Effect.updateReviewText
          (AddonReviewBase.submitParams review st) ∈ tr := by
  have hb : jsOrUndefined st.reviewBody = none := by
    rcases h with h | h <;> simp [h, jsOrUndefined, jsFalsyStr]
  refine ⟨?_, ?_, ⟨_, rfl, ?_, ?_⟩⟩
  · simp [AddonReviewBase.submitParams, hb]
  · simp [AddonReviewBase.submitUpdatedReview, hb]
  · simp
  · simp

theorem c10_witness :
    (AddonReviewBase.submitParams
        { id := some 1, addonId := some 2, addonSlug := some "slug",
          body := some "old", rating := some 4 }
        { reviewBody := some "" }).body = none ∧
    (AddonReviewBase.submitUpdatedReview
        { id := some 1, addonId := some 2, addonSlug := some "slug",
          body := some "old", rating := some 4 }
        { reviewBody := some "" }).body = none ∧
    ∃ tr, AddonReviewBase.onSubmit true true true
        { id := some 1, addonId := some 2, addonSlug := some "slug",
          body := some "old", rating := some 4 }
        { reviewBody := some "" } true = Except.ok tr ∧
      AddonReviewBase.Effect.setDenormalizedReview
          (AddonReviewBase.submitUpdatedReview
            { id := some 1, addonId := some 2, addonSlug := some "slug",
              body := some "old", rating := some 4 }
            { reviewBody := some "" }) ∈ tr ∧
      AddonReviewBase.Effect.updateReviewText
          (AddonReviewBase.submitParams
            { id := some 1, addonId := some 2, addonSlug := some "slug",
              body := some "old", rating := some 4 }
            { reviewBody := some "" }) ∈ tr :=
  c10_emptyBodyDropped
    { id := some 1, addonId := some 2, addonSlug := some "slug",
      body := some "old", rating := some 4 }
    { reviewBody := some "" } (Or.inr rfl)
